import Mathlib

/-!
Shallow embedding of `src/server.js` (the one20minutes contact-form server):
the `POST /api/contact` route, its multer upload stage, the `normalizeArray`
field normalizer, the Mongo insert guard, the SMTP guard, the email body
renderer and the final response.  Effectful steps (disk writes, the document
insert, the mail send) are modelled by explicit success flags; the handler
returns a record of the HTTP response and the externally observable effects.
-/

namespace One20

/-- A form-field value as delivered by the multipart body parser:
either a scalar string or an array of strings (repeated field names). -/
inductive Value where
  | str (s : String)
  | arr (l : List String)
deriving DecidableEq, Repr

/-- JavaScript truthiness of a form value: the empty string is falsy,
every other string is truthy, and every array (even an empty one) is truthy. -/
def Value.truthy : Value → Bool
  | .str s => s != ""
  | .arr _ => true

/-- JavaScript string coercion as used by template literals:
a string is itself, an array stringifies to its elements joined with ",". -/
def Value.jsToString : Value → String
  | .str s => s
  | .arr l => String.intercalate "," l

/-- `req.body`: a finite map from field names to values (no duplicate keys). -/
abbrev FormBody := List (String × Value)

/-- Property access `req.body[k]`: `none` models JavaScript `undefined`. -/
def lookupField (b : FormBody) (k : String) : Option Value :=
  (b.find? (fun p => p.1 == k)).map (fun p => p.2)

/-- Truthiness of a possibly-absent value (`undefined` is falsy). -/
def truthyO : Option Value → Bool
  | none => false
  | some v => v.truthy

/-- JavaScript `a || b` on form values: yields `a` when truthy, else `b`. -/
def jsOr (a b : Option Value) : Option Value :=
  if truthyO a then a else b

/-- `function normalizeArray(value)` from server.js:
`if (!value) return []; if (Array.isArray(value)) return value; return [value];` -/
def normalizeArray : Option Value → List String
  | none => []
  | some (.str s) => if s = "" then [] else [s]
  | some (.arr l) => l

/-- The dual-key multi-value lookup
`normalizeArray(req.body["name[]"] || req.body.name)` from the handler. -/
def multiField (b : FormBody) (name : String) : List String :=
  normalizeArray (jsOr (lookupField b (name ++ "[]")) (lookupField b name))

/-- An environment variable: `none` models an unset variable. -/
abbrev EnvVar := Option String

/-- JavaScript truthiness of an environment variable
(unset and empty-string are both falsy). -/
def envTruthy : EnvVar → Bool
  | none => false
  | some s => s != ""

/-- `process.env.X || dflt`. -/
def envGetD (x : EnvVar) (dflt : String) : String :=
  match x with
  | none => dflt
  | some s => if s = "" then dflt else s

/-- The configuration surface read by server.js. -/
structure Config where
  mongoUri : EnvVar
  smtpHost : EnvVar
  smtpPort : EnvVar
  smtpSecure : EnvVar
  smtpUser : EnvVar
  smtpPass : EnvVar
  mailTo : EnvVar
  mailFrom : EnvVar
deriving DecidableEq, Repr

/-- The SMTP guard of the handler:
`!smtpHost || !smtpUser || !smtpPass || !mailTo || !mailFrom` negated.
Note that `SMTP_PORT` and `SMTP_SECURE` are not checked. -/
def smtpConfigured (cfg : Config) : Bool :=
  envTruthy cfg.smtpHost && envTruthy cfg.smtpUser && envTruthy cfg.smtpPass &&
  envTruthy cfg.mailTo && envTruthy cfg.mailFrom

/-- Value of a list of decimal digit characters. -/
def parseDigits (cs : List Char) : Nat :=
  cs.foldl (fun a c => a * 10 + (c.toNat - 48)) 0

/-- JavaScript `parseInt(s, 10)`: skip leading whitespace, optional sign,
then the longest prefix of decimal digits; `none` models `NaN`. -/
def jsParseInt (s : String) : Option Int :=
  let cs := s.data.dropWhile (fun c => c.isWhitespace)
  match cs with
  | '-' :: rest =>
      let d := rest.takeWhile Char.isDigit
      if d.isEmpty then none else some (-(parseDigits d : Int))
  | '+' :: rest =>
      let d := rest.takeWhile Char.isDigit
      if d.isEmpty then none else some ((parseDigits d : Int))
  | cs0 =>
      let d := cs0.takeWhile Char.isDigit
      if d.isEmpty then none else some ((parseDigits d : Int))

/-- Characters kept unchanged by the filename sanitizer:
the regex character class `[a-zA-Z0-9._-]`. -/
def isAllowedChar (c : Char) : Bool :=
  ('a' ≤ c && c ≤ 'z') || ('A' ≤ c && c ≤ 'Z') || ('0' ≤ c && c ≤ '9') ||
  c = '.' || c = '_' || c = '-'

/-- `file.originalname.replace(/[^a-zA-Z0-9._-]/g, "_")` from the
multer `diskStorage.filename` callback. -/
def sanitizeName (s : String) : String :=
  ⟨s.data.map (fun c => if isAllowedChar c then c else '_')⟩

/-- The stored filename: `` `${Date.now()}-${safeName}` `` with `now`
the current unix epoch in milliseconds. -/
def storedFileName (now : Nat) (originalname : String) : String :=
  toString now ++ "-" ++ sanitizeName originalname

/-- The uploads directory (`path.join(__dirname, "uploads")`). -/
def uploadsDir : String := "uploads"

/-- `limits.fileSize = 10 * 1024 * 1024` from the multer configuration. -/
def maxFileSize : Nat := 10 * 1024 * 1024

/-- The maximum number of file parts: `upload.array("attachments", 5)`. -/
def maxFileCount : Nat := 5

/-- A raw uploaded file part, before the upload middleware stores it.
`writeOk` models whether the disk write of this part succeeds. -/
structure RawFile where
  originalname : String
  mimetype : String
  size : Nat
  writeOk : Bool
deriving DecidableEq, Repr

/-- The per-file metadata multer exposes to the handler
(`originalname`, `filename`, `path`, `mimetype`, `size`). -/
structure FileInfo where
  originalname : String
  filename : String
  path : String
  mimetype : String
  size : Nat
deriving DecidableEq, Repr

/-- Storing one accepted file part: the `diskStorage` engine writes it under
`storedFileName` inside the uploads directory. -/
def saveFile (now : Nat) (f : RawFile) : FileInfo :=
  { originalname := f.originalname
    filename := storedFileName now f.originalname
    path := uploadsDir ++ "/" ++ storedFileName now f.originalname
    mimetype := f.mimetype
    size := f.size }

/-- Errors raised by the upload middleware before the handler body runs. -/
inductive MulterError where
  | tooManyFiles
  | fileTooLarge
  | storageFailure
deriving DecidableEq, Repr

/-- Modelled from the spec: the multer middleware
`upload.array("attachments", 5)` with `limits.fileSize` of 10 MiB
(multer itself is a library dependency, not part of this repository).
More than 5 file parts, a part over the size cap, or a failed disk write
each abort the request with an error before the handler body runs;
otherwise every part is stored and its metadata handed to the handler. -/
def multerStage (now : Nat) (files : List RawFile) :
    Except MulterError (List FileInfo) :=
  if files.length > maxFileCount then .error .tooManyFiles
  else if files.any (fun f => f.size > maxFileSize) then .error .fileTooLarge
  else if files.any (fun f => !f.writeOk) then .error .storageFailure
  else .ok (files.map (saveFile now))

/-- `x || ""` as used when building the document to insert. -/
def orEmpty : Option Value → Value
  | none => .str ""
  | some v => if v.truthy then v else .str ""

/-- `` `${x || "-"}` `` as used when rendering the email body. -/
def orDash : Option Value → String
  | none => "-"
  | some v => if v.truthy then v.jsToString else "-"

/-- `l.join(", ") || "-"` as used for the multi-value email lines. -/
def joinOrDash (l : List String) : String :=
  if String.intercalate ", " l = "" then "-" else String.intercalate ", " l

/-- An HTTP response: status code and body text. -/
structure Response where
  status : Nat
  body : String
deriving DecidableEq, Repr

/-- `res.status(200).send("OK")`. -/
def okResponse : Response := ⟨200, "OK"⟩

/-- `res.status(400).send("Missing required fields")`. -/
def badRequestResponse : Response := ⟨400, "Missing required fields"⟩

/-- `res.status(500).send("Server error")` from the handler's catch block. -/
def serverErrorResponse : Response := ⟨500, "Server error"⟩

/-- The persisted document shape (the mongoose `submissionSchema`). -/
structure Submission where
  created_at : String
  full_name : Value
  email : Value
  phone : Value
  company : Value
  build_type : Value
  project_type : Value
  industry : Value
  platform_required : List String
  timeline : Value
  startup_stage : Value
  budget : Value
  message : Value
  mvp_validation : Value
  mvp_purpose : List String
  discussion_mode : List String
  referral_source : Value
  attachments : List FileInfo
deriving DecidableEq, Repr

/-- One attachment entry of the outgoing mail:
`{ filename: file.originalname, path: file.path }`. -/
structure MailAttachment where
  filename : String
  path : String
deriving DecidableEq, Repr

/-- The outgoing mail: the transporter options plus the `sendMail` argument. -/
structure Mail where
  host : String
  port : Option Int
  secure : Bool
  authUser : String
  authPass : String
  fromAddr : String
  toAddr : String
  replyTo : Value
  subject : String
  text : String
  attachments : List MailAttachment
deriving DecidableEq, Repr

/-- The required-field validation `!full_name || !email || !phone`. -/
def requiredMissing (b : FormBody) : Bool :=
  !truthyO (lookupField b "full_name") || !truthyO (lookupField b "email") ||
  !truthyO (lookupField b "phone")

/-- The document passed to `Submission.create`. -/
def mkSubmission (b : FormBody) (files : List FileInfo) (createdAt : String) :
    Submission :=
  { created_at := createdAt
    full_name := (lookupField b "full_name").getD (.str "")
    email := (lookupField b "email").getD (.str "")
    phone := (lookupField b "phone").getD (.str "")
    company := orEmpty (lookupField b "company")
    build_type := orEmpty (lookupField b "build_type")
    project_type := orEmpty (lookupField b "project_type")
    industry := orEmpty (lookupField b "industry")
    platform_required := multiField b "platform_required"
    timeline := orEmpty (lookupField b "timeline")
    startup_stage := orEmpty (lookupField b "startup_stage")
    budget := orEmpty (lookupField b "budget")
    message := orEmpty (lookupField b "message")
    mvp_validation := orEmpty (lookupField b "mvp_validation")
    mvp_purpose := multiField b "mvp_purpose"
    discussion_mode := multiField b "discussion_mode"
    referral_source := orEmpty (lookupField b "referral_source")
    attachments := files }

/-- The `emailBody` template: one `Label: value` line per field in the
source's fixed order, a blank line, `Message:` and the message text,
joined with newlines. -/
def emailBody (b : FormBody) : String :=
  String.intercalate "\n"
    [ "Full Name: " ++ ((lookupField b "full_name").getD (.str "")).jsToString
    , "Email: " ++ ((lookupField b "email").getD (.str "")).jsToString
    , "Phone: " ++ ((lookupField b "phone").getD (.str "")).jsToString
    , "Company: " ++ orDash (lookupField b "company")
    , "Build Type: " ++ orDash (lookupField b "build_type")
    , "Project Type: " ++ orDash (lookupField b "project_type")
    , "Industry: " ++ orDash (lookupField b "industry")
    , "Platform Required: " ++ joinOrDash (multiField b "platform_required")
    , "Timeline: " ++ orDash (lookupField b "timeline")
    , "Startup Stage: " ++ orDash (lookupField b "startup_stage")
    , "Budget: " ++ orDash (lookupField b "budget")
    , "MVP Validation: " ++ orDash (lookupField b "mvp_validation")
    , "MVP Purpose: " ++ joinOrDash (multiField b "mvp_purpose")
    , "Discussion Mode: " ++ joinOrDash (multiField b "discussion_mode")
    , "Referral Source: " ++ orDash (lookupField b "referral_source")
    , ""
    , "Message:"
    , orDash (lookupField b "message") ]

/-- The mail assembled from the transporter options and the `sendMail` call:
port `parseInt(SMTP_PORT || "587", 10)`, secure `SMTP_SECURE === "true"`,
subject `` `New Inquiry - ${full_name}` ``, reply-to the submitter's email,
one attachment per stored file. -/
def mkMail (cfg : Config) (b : FormBody) (files : List FileInfo) : Mail :=
  { host := envGetD cfg.smtpHost ""
    port := jsParseInt (envGetD cfg.smtpPort "587")
    secure := cfg.smtpSecure == some "true"
    authUser := envGetD cfg.smtpUser ""
    authPass := envGetD cfg.smtpPass ""
    fromAddr := envGetD cfg.mailFrom ""
    toAddr := envGetD cfg.mailTo ""
    replyTo := (lookupField b "email").getD (.str "")
    subject := "New Inquiry - " ++
      ((lookupField b "full_name").getD (.str "")).jsToString
    text := emailBody b
    attachments := files.map (fun f => ⟨f.originalname, f.path⟩) }

/-- The externally observable outcome of one handler run: the HTTP response,
whether `Submission.create` was called and the record it left in the store
(the system never updates or deletes a stored submission, so a record
present here remains stored after the request), and whether
`transporter.sendMail` was called and the mail it delivered. -/
structure HandlerResult where
  response : Response
  insertAttempted : Bool
  inserted : Option Submission
  sendAttempted : Bool
  sent : Option Mail
deriving DecidableEq, Repr

/-- The `POST /api/contact` handler body (after the upload middleware):
validation, the guarded `Submission.create`, the SMTP guard, the
`sendMail` call, and the try/catch mapping any thrown error to
`serverErrorResponse`.  `dbOk` and `mailOk` say whether the insert and
the send succeed when attempted. -/
def handler (cfg : Config) (b : FormBody) (files : List FileInfo)
    (createdAt : String) (dbOk : Bool) (mailOk : Bool) : HandlerResult :=
  if requiredMissing b then
    { response := badRequestResponse, insertAttempted := false,
      inserted := none, sendAttempted := false, sent := none }
  else if envTruthy cfg.mongoUri && !dbOk then
    { response := serverErrorResponse, insertAttempted := true,
      inserted := none, sendAttempted := false, sent := none }
  else if !smtpConfigured cfg then
    { response := okResponse, insertAttempted := envTruthy cfg.mongoUri,
      inserted := if envTruthy cfg.mongoUri then
        some (mkSubmission b files createdAt) else none,
      sendAttempted := false, sent := none }
  else if mailOk then
    { response := okResponse, insertAttempted := envTruthy cfg.mongoUri,
      inserted := if envTruthy cfg.mongoUri then
        some (mkSubmission b files createdAt) else none,
      sendAttempted := true, sent := some (mkMail cfg b files) }
  else
    { response := serverErrorResponse, insertAttempted := envTruthy cfg.mongoUri,
      inserted := if envTruthy cfg.mongoUri then
        some (mkSubmission b files createdAt) else none,
      sendAttempted := true, sent := none }

/-- The whole route: upload middleware, then the handler body. -/
def route (cfg : Config) (now : Nat) (rawFiles : List RawFile) (b : FormBody)
    (createdAt : String) (dbOk : Bool) (mailOk : Bool) :
    Except MulterError HandlerResult :=
  match multerStage now rawFiles with
  | .error e => .error e
  | .ok fs => .ok (handler cfg b fs createdAt dbOk mailOk)

/-- Modelled from the spec: when the upload middleware errors, Express's
default error handler answers (the route handler, and with it the
`"Server error"` catch block, never runs); its production response body is
the HTTP status message, not the handler's text.  Express is a library
dependency, not part of this repository. -/
def defaultErrorResponse : Response := ⟨500, "Internal Server Error"⟩

/-- The HTTP response of the whole route, middleware errors included. -/
def routeResponse (cfg : Config) (now : Nat) (rawFiles : List RawFile)
    (b : FormBody) (createdAt : String) (dbOk : Bool) (mailOk : Bool) :
    Response :=
  match route cfg now rawFiles b createdAt dbOk mailOk with
  | .error _ => defaultErrorResponse
  | .ok r => r.response

/-! ### Concrete configurations and bodies used by witnesses and counterexamples -/

/-- A configuration with persistence and full SMTP settings. -/
def cfgAll : Config :=
  ⟨some "mongodb://localhost/one20minutes", some "smtp.example.com",
   some "2525", some "true", some "user", some "pass",
   some "inbox@example.com", some "noreply@example.com"⟩

/-- SMTP credentials present but `SMTP_PORT` and `SMTP_SECURE` unset;
no persistence configured. -/
def cfgNoPort : Config :=
  ⟨none, some "smtp.example.com", none, none, some "user", some "pass",
   some "inbox@example.com", some "noreply@example.com"⟩

/-- A body with the three required fields filled. -/
def bodyJane : FormBody :=
  [("full_name", Value.str "Jane Doe"), ("email", Value.str "jane@x.com"),
   ("phone", Value.str "555-1234")]

/-! ### Helper lemmas -/

theorem truthyO_getD {o : Option Value} (h : truthyO o = true) :
    (o.getD (.str "")).truthy = true := by
  cases o
  · simp [truthyO] at h
  · simpa [truthyO] using h

theorem truthy_str {v : Value} {s : String} (h : v.truthy = true)
    (hs : v = .str s) : s ≠ "" := by
  subst hs
  simpa [Value.truthy] using h

theorem envTruthy_some {o : EnvVar} (h : envTruthy o = true) :
    o = some (envGetD o "") := by
  cases o with
  | none => simp [envTruthy] at h
  | some s =>
    have hs : s ≠ "" := by simpa [envTruthy] using h
    simp [envGetD, hs]

theorem requiredMissing_false {b : FormBody} (h : requiredMissing b = false) :
    truthyO (lookupField b "full_name") = true ∧
    truthyO (lookupField b "email") = true ∧
    truthyO (lookupField b "phone") = true := by
  simpa [requiredMissing, and_assoc] using h

/-- What a successful handler insert implies: validation passed, persistence
was configured, and the stored record is the document built from the body. -/
theorem handler_inserted_eq {cfg : Config} {b : FormBody} {files : List FileInfo}
    {createdAt : String} {dbOk mailOk : Bool} {sub : Submission}
    (h : (handler cfg b files createdAt dbOk mailOk).inserted = some sub) :
    sub = mkSubmission b files createdAt ∧ requiredMissing b = false ∧
    envTruthy cfg.mongoUri = true := by
  by_cases h1 : requiredMissing b = true
  · simp [handler, h1] at h
  · cases hB : envTruthy cfg.mongoUri <;> cases hdb : dbOk <;>
      cases hs : smtpConfigured cfg <;> cases hm : mailOk <;>
        simp [handler, h1, hB, hdb, hs, hm] at h <;>
          exact ⟨h.symm, by simpa using h1, rfl⟩

/-- What a sent mail implies: validation passed, the SMTP guard was
satisfied, the send succeeded, and the mail is the one built by `mkMail`. -/
theorem handler_sent_eq {cfg : Config} {b : FormBody} {files : List FileInfo}
    {createdAt : String} {dbOk mailOk : Bool} {m : Mail}
    (h : (handler cfg b files createdAt dbOk mailOk).sent = some m) :
    m = mkMail cfg b files ∧ requiredMissing b = false ∧
    smtpConfigured cfg = true ∧ mailOk = true := by
  by_cases h1 : requiredMissing b = true
  · simp [handler, h1] at h
  · cases hB : envTruthy cfg.mongoUri <;> cases hdb : dbOk <;>
      cases hs : smtpConfigured cfg <;> cases hm : mailOk <;>
        simp [handler, h1, hB, hdb, hs, hm] at h <;>
          exact ⟨h.symm, by simpa using h1, rfl, rfl⟩

/-! ### Claim C1 -/

/-- The multi-value lookup as the claim words it, for comparison with
`multiField` (which follows the code): the bracketed key takes priority
whenever it is present, and a scalar string always becomes the one-element
sequence containing it. -/
def multiFieldClaim (b : FormBody) (name : String) : List String :=
  match lookupField b (name ++ "[]") with
  | some (.str s) => [s]
  | some (.arr l) => l
  | none =>
    match lookupField b name with
    | some (.str s) => [s]
    | some (.arr l) => l
    | none => []

/-- Claim C1 counterexample: when the bracketed key is present but holds the
empty string and the unbracketed key holds "a", the code ignores the
bracketed key (the `||` skips falsy values) and yields `["a"]`, while the
claim — bracketed priority, scalar to one-element sequence — demands `[""]`. -/
theorem c1_counterexample :
    multiField
      [("platform_required[]", Value.str ""), ("platform_required", Value.str "a")]
      "platform_required" = ["a"]
    ∧ multiFieldClaim
      [("platform_required[]", Value.str ""), ("platform_required", Value.str "a")]
      "platform_required" = [""]
    ∧ (["a"] : List String) ≠ [""] := by
  decide

/-- Claim C1 (amended): both keys are looked up, but the bracketed key takes
priority only when its value is truthy (a non-empty string or an array); an
absent or empty-string chosen value yields the empty sequence, a non-empty
scalar yields the one-element sequence containing it, and an array is
returned unchanged. -/
theorem c1_multi_value_normalization (b : FormBody) (name : String) :
    (lookupField b (name ++ "[]") = none →
      multiField b name = normalizeArray (lookupField b name))
    ∧ (∀ v : Value, lookupField b (name ++ "[]") = some v → v.truthy = true →
        multiField b name = normalizeArray (some v))
    ∧ (∀ v : Value, lookupField b (name ++ "[]") = some v → v.truthy = false →
        multiField b name = normalizeArray (lookupField b name))
    ∧ normalizeArray none = ([] : List String)
    ∧ (∀ s : String, s ≠ "" → normalizeArray (some (.str s)) = [s])
    ∧ normalizeArray (some (.str "")) = ([] : List String)
    ∧ (∀ l : List String, normalizeArray (some (.arr l)) = l) := by
  refine ⟨?_, ?_, ?_, rfl, ?_, rfl, fun l => rfl⟩
  · intro h
    simp [multiField, jsOr, h, truthyO]
  · intro v h hv
    simp [multiField, jsOr, h, truthyO, hv]
  · intro v h hv
    simp [multiField, jsOr, h, truthyO, hv]
  · intro s hs
    simp [normalizeArray, hs]

/-- Witness for C1: the amended theorem applied to a concrete body in which
the bracketed key holds the array `["a", "b"]`. -/
theorem c1_witness :
    multiField [("platform_required[]", Value.arr ["a", "b"])]
      "platform_required" = ["a", "b"] := by
  have h :=
    (c1_multi_value_normalization
      [("platform_required[]", Value.arr ["a", "b"])] "platform_required").2.1
      (Value.arr ["a", "b"]) (by decide) (by decide)
  simpa [normalizeArray] using h

/-! ### Claim C2 -/

/-- Claim C2: a request missing any of the required scalars (absent or empty
string) is answered 400 "Missing required fields" with no insert and no
mail; and every record the handler does insert has truthy (for strings:
non-empty) full_name, email and phone. -/
theorem c2_missing_required_fields :
    (∀ (cfg : Config) (b : FormBody) (files : List FileInfo)
        (createdAt : String) (dbOk mailOk : Bool),
      (lookupField b "full_name" = none ∨ lookupField b "full_name" = some (.str "")
        ∨ lookupField b "email" = none ∨ lookupField b "email" = some (.str "")
        ∨ lookupField b "phone" = none ∨ lookupField b "phone" = some (.str "")) →
      handler cfg b files createdAt dbOk mailOk =
        { response := badRequestResponse, insertAttempted := false,
          inserted := none, sendAttempted := false, sent := none })
    ∧ (∀ (cfg : Config) (b : FormBody) (files : List FileInfo)
        (createdAt : String) (dbOk mailOk : Bool) (sub : Submission),
      (handler cfg b files createdAt dbOk mailOk).inserted = some sub →
      sub.full_name.truthy = true ∧ sub.email.truthy = true ∧
      sub.phone.truthy = true
      ∧ (∀ s : String, sub.full_name = .str s → s ≠ "")
      ∧ (∀ s : String, sub.email = .str s → s ≠ "")
      ∧ (∀ s : String, sub.phone = .str s → s ≠ "")) := by
  constructor
  · intro cfg b files createdAt dbOk mailOk h
    have hm : requiredMissing b = true := by
      rcases h with h | h | h | h | h | h <;>
        simp [requiredMissing, h, truthyO, Value.truthy]
    simp [handler, hm]
  · intro cfg b files createdAt dbOk mailOk sub h
    obtain ⟨hsub, hrm, -⟩ := handler_inserted_eq h
    obtain ⟨h1, h2, h3⟩ := requiredMissing_false hrm
    subst hsub
    refine ⟨truthyO_getD h1, truthyO_getD h2, truthyO_getD h3,
      fun s hs => truthy_str (truthyO_getD h1) hs,
      fun s hs => truthy_str (truthyO_getD h2) hs,
      fun s hs => truthy_str (truthyO_getD h3) hs⟩

/-- Witness for C2: a concrete request with an empty phone field is rejected
with 400 and performs no effect. -/
theorem c2_witness :
    handler cfgAll
      [("full_name", Value.str "Jane Doe"), ("email", Value.str "jane@x.com"),
        ("phone", Value.str "")] [] "2024-01-01T00:00:00.000Z" true true =
      { response := badRequestResponse, insertAttempted := false,
        inserted := none, sendAttempted := false, sent := none } :=
  c2_missing_required_fields.1 cfgAll
    [("full_name", Value.str "Jane Doe"), ("email", Value.str "jane@x.com"),
      ("phone", Value.str "")] [] "2024-01-01T00:00:00.000Z" true true
    (by simp [lookupField])

/-! ### Claim C3 -/

/-- What a successful upload stage implies: the stored metadata is the saved
form of the raw parts, at most 5 parts were sent, all within the size cap,
and all disk writes succeeded. -/
theorem multerStage_ok_spec {now : Nat} {files : List RawFile}
    {fs : List FileInfo} (h : multerStage now files = .ok fs) :
    fs = files.map (saveFile now) ∧ files.length ≤ maxFileCount ∧
    (∀ f ∈ files, f.size ≤ maxFileSize) ∧ (∀ f ∈ files, f.writeOk = true) := by
  unfold multerStage at h
  split at h
  · cases h
  · split at h
    · cases h
    · split at h
      · cases h
      · rename_i h1 h2 h3
        injection h with h
        refine ⟨h.symm, not_lt.mp h1, ?_, ?_⟩
        · intro f hf
          by_contra hgt
          exact h2 (List.any_eq_true.mpr
            ⟨f, hf, by simpa using not_le.mp hgt⟩)
        · intro f hf
          by_contra hok
          exact h3 (List.any_eq_true.mpr
            ⟨f, hf, by simpa using hok⟩)

/-- Claim C3: a request with non-empty required scalars succeeds with
200 "OK" whenever the upload stage, the insert (if configured) and the
send (if configured) all succeed. -/
theorem c3_valid_request_success :
    ∀ (cfg : Config) (now : Nat) (rawFiles : List RawFile) (b : FormBody)
      (createdAt : String) (dbOk mailOk : Bool),
      (∃ s : String, lookupField b "full_name" = some (.str s) ∧ s ≠ "") →
      (∃ s : String, lookupField b "email" = some (.str s) ∧ s ≠ "") →
      (∃ s : String, lookupField b "phone" = some (.str s) ∧ s ≠ "") →
      rawFiles.length ≤ maxFileCount →
      (∀ f ∈ rawFiles, f.size ≤ maxFileSize ∧ f.writeOk = true) →
      (envTruthy cfg.mongoUri = true → dbOk = true) →
      (smtpConfigured cfg = true → mailOk = true) →
      routeResponse cfg now rawFiles b createdAt dbOk mailOk = okResponse := by
  intro cfg now rawFiles b createdAt dbOk mailOk hf he hp hlen hfiles hdb hmail
  have hrm : requiredMissing b = false := by
    obtain ⟨s1, hs1, hn1⟩ := hf
    obtain ⟨s2, hs2, hn2⟩ := he
    obtain ⟨s3, hs3, hn3⟩ := hp
    simp [requiredMissing, truthyO, hs1, hs2, hs3, Value.truthy, hn1, hn2, hn3]
  have hms : multerStage now rawFiles = .ok (rawFiles.map (saveFile now)) := by
    unfold multerStage
    rw [if_neg (not_lt.mpr hlen), if_neg ?hsz, if_neg ?hwr]
    case hsz =>
      simp only [List.any_eq_true, decide_eq_true_eq, not_exists, not_and,
        not_lt]
      intro f hfmem
      exact (hfiles f hfmem).1
    case hwr =>
      simp only [List.any_eq_true, Bool.not_eq_true', not_exists, not_and]
      intro f hfmem
      simp [(hfiles f hfmem).2]
  unfold routeResponse route
  rw [hms]
  cases hB : envTruthy cfg.mongoUri
  · cases hs : smtpConfigured cfg
    · simp [handler, hrm, hB, hs]
    · simp [handler, hrm, hB, hs, hmail hs]
  · cases hs : smtpConfigured cfg
    · simp [handler, hrm, hB, hdb hB, hs]
    · simp [handler, hrm, hB, hdb hB, hs, hmail hs]

/-- Witness for C3: the end-to-end example of the spec — valid fields, one
small attachment, everything configured and succeeding — answers 200 "OK". -/
theorem c3_witness :
    routeResponse cfgAll 1700000000000
      [⟨"brief.txt", "text/plain", 1024, true⟩] bodyJane
      "2024-01-01T00:00:00.000Z" true true = okResponse :=
  c3_valid_request_success cfgAll 1700000000000
    [⟨"brief.txt", "text/plain", 1024, true⟩] bodyJane
    "2024-01-01T00:00:00.000Z" true true
    ⟨"Jane Doe", by decide, by decide⟩
    ⟨"jane@x.com", by decide, by decide⟩
    ⟨"555-1234", by decide, by decide⟩
    (by decide) (by decide) (fun _ => rfl) (fun _ => rfl)

/-! ### Claim C4 -/

/-- Claim C4: with no persistence connection string configured the handler
never attempts the insert and stores nothing, and an otherwise-valid
request still succeeds. -/
theorem c4_persistence_unconfigured :
    ∀ (cfg : Config) (b : FormBody) (files : List FileInfo)
      (createdAt : String) (dbOk mailOk : Bool),
      envTruthy cfg.mongoUri = false →
      (handler cfg b files createdAt dbOk mailOk).insertAttempted = false
      ∧ (handler cfg b files createdAt dbOk mailOk).inserted = none
      ∧ (requiredMissing b = false →
          (smtpConfigured cfg = true → mailOk = true) →
          (handler cfg b files createdAt dbOk mailOk).response = okResponse) := by
  intro cfg b files createdAt dbOk mailOk hB
  refine ⟨?_, ?_, ?_⟩
  · by_cases h1 : requiredMissing b = true <;>
      cases hs : smtpConfigured cfg <;> cases mailOk <;>
        simp [handler, h1, hB, hs]
  · by_cases h1 : requiredMissing b = true <;>
      cases hs : smtpConfigured cfg <;> cases mailOk <;>
        simp [handler, h1, hB, hs]
  · intro hrm hmail
    cases hs : smtpConfigured cfg
    · simp [handler, hrm, hB, hs]
    · simp [handler, hrm, hB, hs, hmail hs]

/-- Witness for C4: a concrete valid request with `MONGODB_URI` unset
(and mail configured and succeeding) skips the insert and answers 200. -/
theorem c4_witness :
    (handler cfgNoPort bodyJane [] "2024-01-01T00:00:00.000Z" true true).insertAttempted = false
    ∧ (handler cfgNoPort bodyJane [] "2024-01-01T00:00:00.000Z" true true).inserted = none
    ∧ (handler cfgNoPort bodyJane [] "2024-01-01T00:00:00.000Z" true true).response = okResponse := by
  have h := c4_persistence_unconfigured cfgNoPort bodyJane []
    "2024-01-01T00:00:00.000Z" true true (by decide)
  exact ⟨h.1, h.2.1, h.2.2 (by decide) (fun _ => rfl)⟩

set_option maxRecDepth 16384

/-! ### Claim C5 -/

/-- A configuration with `SMTP_USER` unset and the rest of the mail settings
present. -/
def cfgNoUser : Config :=
  ⟨none, some "smtp.example.com", some "587", none, none, some "pass",
   some "inbox@example.com", some "noreply@example.com"⟩

/-- Claim C5 counterexample: with `SMTP_PORT` and `SMTP_SECURE` both unset
but host, username, password, from- and to-address present, the Notifier
does not skip — it sends, defaulting the port to 587 and the secure flag
to false.  The seven items are not "all required together". -/
theorem c5_counterexample :
    cfgNoPort.smtpPort = none
    ∧ cfgNoPort.smtpSecure = none
    ∧ (handler cfgNoPort bodyJane [] "2024-01-01T00:00:00.000Z" true true).sendAttempted = true
    ∧ ((handler cfgNoPort bodyJane [] "2024-01-01T00:00:00.000Z" true true).sent.map Mail.port)
        = some (some 587)
    ∧ ((handler cfgNoPort bodyJane [] "2024-01-01T00:00:00.000Z" true true).sent.map Mail.secure)
        = some false := by
  decide

/-- Claim C5 (amended): only host, username, password, from-address and
to-address are required together — if any of those five is missing the
Notifier skips entirely and an otherwise-valid request still succeeds;
a missing port defaults to 587 and a missing secure flag to false. -/
theorem c5_smtp_guard (cfg : Config) (b : FormBody) (files : List FileInfo)
    (createdAt : String) (dbOk mailOk : Bool) :
    (smtpConfigured cfg = false →
      (handler cfg b files createdAt dbOk mailOk).sendAttempted = false
      ∧ (handler cfg b files createdAt dbOk mailOk).sent = none
      ∧ (requiredMissing b = false →
          (envTruthy cfg.mongoUri = true → dbOk = true) →
          (handler cfg b files createdAt dbOk mailOk).response = okResponse))
    ∧ (∀ m : Mail, (handler cfg b files createdAt dbOk mailOk).sent = some m →
        (cfg.smtpPort = none → m.port = some 587)
        ∧ (cfg.smtpSecure = none → m.secure = false)) := by
  constructor
  · intro hs
    refine ⟨?_, ?_, ?_⟩
    · by_cases h1 : requiredMissing b = true <;>
        cases hB : envTruthy cfg.mongoUri <;> cases dbOk <;>
          simp [handler, h1, hB, hs]
    · by_cases h1 : requiredMissing b = true <;>
        cases hB : envTruthy cfg.mongoUri <;> cases dbOk <;>
          simp [handler, h1, hB, hs]
    · intro hrm hdb
      cases hB : envTruthy cfg.mongoUri
      · simp [handler, hrm, hB, hs]
      · simp [handler, hrm, hB, hdb hB, hs]
  · intro m hm
    obtain ⟨hmail, -, -, -⟩ := handler_sent_eq hm
    subst hmail
    constructor
    · intro hport
      simp only [mkMail]
      rw [hport]
      decide
    · intro hsec
      simp only [mkMail]
      rw [hsec]
      decide

/-- Witness for C5: with `SMTP_USER` unset the send is skipped and a valid
request still answers 200. -/
theorem c5_witness :
    (handler cfgNoUser bodyJane [] "2024-01-01T00:00:00.000Z" true true).sent = none
    ∧ (handler cfgNoUser bodyJane [] "2024-01-01T00:00:00.000Z" true true).response = okResponse := by
  have h := (c5_smtp_guard cfgNoUser bodyJane [] "2024-01-01T00:00:00.000Z"
    true true).1 (by decide)
  exact ⟨h.2.1, h.2.2 (by decide) (fun _ => rfl)⟩

/-! ### Claim C6 -/

/-- A string that is empty or consists only of whitespace. -/
def isBlank (s : String) : Bool :=
  s.data.all (fun c => c.isWhitespace)

/-- The dash substitution as the claim words it — the literal "-" replaces
values that are empty or blank (whitespace-only) — written for comparison
with `orDash`, which follows the code and keeps whitespace-only values. -/
def orDashClaim : Option Value → String
  | none => "-"
  | some v => if isBlank (v.jsToString) then "-" else v.jsToString

/-- The multi-value line rendering as the claim words it (blank joined
values also replaced by "-"). -/
def joinOrDashClaim (l : List String) : String :=
  if isBlank (String.intercalate ", " l) then "-"
  else String.intercalate ", " l

/-- The email body as the claim words it: identical to `emailBody` except
that the "-" substitution also applies to blank (whitespace-only) values. -/
def emailBodyClaim (b : FormBody) : String :=
  String.intercalate "\n"
    [ "Full Name: " ++ ((lookupField b "full_name").getD (.str "")).jsToString
    , "Email: " ++ ((lookupField b "email").getD (.str "")).jsToString
    , "Phone: " ++ ((lookupField b "phone").getD (.str "")).jsToString
    , "Company: " ++ orDashClaim (lookupField b "company")
    , "Build Type: " ++ orDashClaim (lookupField b "build_type")
    , "Project Type: " ++ orDashClaim (lookupField b "project_type")
    , "Industry: " ++ orDashClaim (lookupField b "industry")
    , "Platform Required: " ++ joinOrDashClaim (multiField b "platform_required")
    , "Timeline: " ++ orDashClaim (lookupField b "timeline")
    , "Startup Stage: " ++ orDashClaim (lookupField b "startup_stage")
    , "Budget: " ++ orDashClaim (lookupField b "budget")
    , "MVP Validation: " ++ orDashClaim (lookupField b "mvp_validation")
    , "MVP Purpose: " ++ joinOrDashClaim (multiField b "mvp_purpose")
    , "Discussion Mode: " ++ joinOrDashClaim (multiField b "discussion_mode")
    , "Referral Source: " ++ orDashClaim (lookupField b "referral_source")
    , ""
    , "Message:"
    , orDashClaim (lookupField b "message") ]

/-- Claim C6 counterexample: a whitespace-only company field is rendered
as-is (`Company:  `), not substituted by "-" — the `||` fallback only
catches the empty string, so "blank" values are kept. -/
theorem c6_counterexample :
    ((handler cfgNoPort (bodyJane ++ [("company", Value.str " ")]) []
        "2024-01-01T00:00:00.000Z" true true).sent.map Mail.text)
      = some (emailBody (bodyJane ++ [("company", Value.str " ")]))
    ∧ emailBody (bodyJane ++ [("company", Value.str " ")])
        ≠ emailBodyClaim (bodyJane ++ [("company", Value.str " ")])
    ∧ orDash (some (Value.str " ")) = " "
    ∧ orDashClaim (some (Value.str " ")) = "-" := by
  refine ⟨by decide, by decide, by decide, by decide⟩

/-- Claim C6 (amended): every mail the handler sends has subject
`New Inquiry - <full_name>`, sender the configured from-address, recipient
the configured to-address, reply-to the submitter's email, one attachment
per stored file named by the original filename and read from the stored
path, and body `emailBody` — the fixed-order `Label: value` lines where
"-" replaces absent or empty-string (not blank) values and multi-value
fields are joined with ", " (or "-" when the join is empty). -/
theorem c6_mail_contents :
    ∀ (cfg : Config) (b : FormBody) (files : List FileInfo)
      (createdAt : String) (dbOk mailOk : Bool) (m : Mail),
      (handler cfg b files createdAt dbOk mailOk).sent = some m →
      m.subject = "New Inquiry - " ++
        ((lookupField b "full_name").getD (.str "")).jsToString
      ∧ cfg.mailFrom = some m.fromAddr
      ∧ cfg.mailTo = some m.toAddr
      ∧ m.replyTo = (lookupField b "email").getD (.str "")
      ∧ m.attachments = files.map (fun f => ⟨f.originalname, f.path⟩)
      ∧ m.text = emailBody b
      ∧ orDash none = "-"
      ∧ orDash (some (.str "")) = "-"
      ∧ (∀ s : String, s ≠ "" → orDash (some (.str s)) = s)
      ∧ joinOrDash [] = "-"
      ∧ (∀ l : List String, String.intercalate ", " l ≠ "" →
          joinOrDash l = String.intercalate ", " l) := by
  intro cfg b files createdAt dbOk mailOk m hm
  obtain ⟨hmail, hrm, hcfg, -⟩ := handler_sent_eq hm
  subst hmail
  have hguard : envTruthy cfg.smtpHost = true ∧ envTruthy cfg.smtpUser = true ∧
      envTruthy cfg.smtpPass = true ∧ envTruthy cfg.mailTo = true ∧
      envTruthy cfg.mailFrom = true := by
    simpa [smtpConfigured, Bool.and_eq_true, and_assoc] using hcfg
  refine ⟨rfl, ?_, ?_, rfl, rfl, rfl, rfl, rfl, ?_, rfl, ?_⟩
  · exact envTruthy_some hguard.2.2.2.2
  · exact envTruthy_some hguard.2.2.2.1
  · intro s hs
    simp [orDash, Value.truthy, Value.jsToString, hs]
  · intro l hl
    simp [joinOrDash, hl]

/-- Witness for C6: the concrete mail sent for a valid request carries the
subject built from the submitter's full name. -/
theorem c6_witness :
    ((handler cfgNoPort bodyJane [] "2024-01-01T00:00:00.000Z" true true).sent.map
      Mail.subject) = some "New Inquiry - Jane Doe" := by
  have hsent : (handler cfgNoPort bodyJane [] "2024-01-01T00:00:00.000Z" true true).sent
      = some (mkMail cfgNoPort bodyJane []) := by decide
  have h := c6_mail_contents cfgNoPort bodyJane [] "2024-01-01T00:00:00.000Z"
    true true (mkMail cfgNoPort bodyJane []) hsent
  rw [hsent]
  show some (mkMail cfgNoPort bodyJane []).subject = some "New Inquiry - Jane Doe"
  rw [h.1]
  decide

/-! ### Claim C7 -/

theorem digitChar_isDigit {n : Nat} (h : n < 10) :
    (Nat.digitChar n).isDigit = true := by
  interval_cases n <;> decide

theorem toDigitsCore_digits :
    ∀ (fuel n : Nat) (ds : List Char), (∀ c ∈ ds, c.isDigit = true) →
      ∀ c ∈ Nat.toDigitsCore 10 fuel n ds, c.isDigit = true := by
  intro fuel
  induction fuel with
  | zero =>
    intro n ds h c hc
    simp only [Nat.toDigitsCore] at hc
    exact h c hc
  | succ fuel ih =>
    intro n ds h c hc
    simp only [Nat.toDigitsCore] at hc
    by_cases h10 : n / 10 = 0
    · rw [if_pos h10] at hc
      rcases List.mem_cons.mp hc with rfl | hc2
      · exact digitChar_isDigit (Nat.mod_lt n (by decide))
      · exact h c hc2
    · rw [if_neg h10] at hc
      refine ih (n / 10) (Nat.digitChar (n % 10) :: ds) ?_ c hc
      intro x hx
      rcases List.mem_cons.mp hx with rfl | hx2
      · exact digitChar_isDigit (Nat.mod_lt n (by decide))
      · exact h x hx2

theorem toDigitsCore_length :
    ∀ (fuel n : Nat) (ds : List Char),
      ds.length ≤ (Nat.toDigitsCore 10 fuel n ds).length := by
  intro fuel
  induction fuel with
  | zero =>
    intro n ds
    simp [Nat.toDigitsCore]
  | succ fuel ih =>
    intro n ds
    simp only [Nat.toDigitsCore]
    by_cases h10 : n / 10 = 0
    · rw [if_pos h10]
      simp
    · rw [if_neg h10]
      calc ds.length ≤ (Nat.digitChar (n % 10) :: ds).length := by simp
        _ ≤ _ := ih (n / 10) (Nat.digitChar (n % 10) :: ds)

/-- Every character of a natural number's decimal representation is a digit. -/
theorem repr_data_digits (n : Nat) : ∀ c ∈ (Nat.repr n).data, c.isDigit = true := by
  have h : (Nat.repr n).data = Nat.toDigitsCore 10 (n + 1) n [] := rfl
  rw [h]
  exact toDigitsCore_digits (n + 1) n [] (by intro c hc; simp at hc)

/-- The decimal representation of a natural number is never empty. -/
theorem repr_data_ne_nil (n : Nat) : (Nat.repr n).data ≠ [] := by
  have h : (Nat.repr n).data = Nat.toDigitsCore 10 (n + 1) n [] := rfl
  rw [h]
  simp only [Nat.toDigitsCore]
  by_cases h10 : n / 10 = 0
  · rw [if_pos h10]
    simp
  · rw [if_neg h10]
    intro hnil
    have hlen := toDigitsCore_length n (n / 10) [Nat.digitChar (n % 10)]
    rw [hnil] at hlen
    simp at hlen

theorem map_allowed_id :
    ∀ (l : List Char), (∀ c ∈ l, isAllowedChar c = true) →
      l.map (fun c => if isAllowedChar c then c else '_') = l := by
  intro l h
  induction l with
  | nil => rfl
  | cons a t ih =>
    simp only [List.map_cons]
    rw [if_pos (h a (List.mem_cons_self a t)),
      ih (fun c hc => h c (List.mem_cons_of_mem a hc))]

/-- Claim C7: the stored filename is the epoch-milliseconds timestamp (a
non-empty run of decimal digits), a hyphen, and the original name with
every character outside `[a-zA-Z0-9._-]` replaced by `_` (length is
preserved; allowed characters pass through); the name
`"my file!@#.pdf"` sanitizes to `"my_file___.pdf"`, so its stored name
matches `^\d+-my_file___\.pdf$`. -/
theorem c7_stored_filename (now : Nat) (orig : String) :
    (storedFileName now orig).data
      = (Nat.repr now).data ++ ('-' :: (sanitizeName orig).data)
    ∧ (∀ c ∈ (Nat.repr now).data, c.isDigit = true)
    ∧ (Nat.repr now).data ≠ []
    ∧ (sanitizeName orig).data
        = orig.data.map (fun c => if isAllowedChar c then c else '_')
    ∧ (∀ c ∈ (sanitizeName orig).data, isAllowedChar c = true)
    ∧ (sanitizeName orig).length = orig.length
    ∧ ((∀ c ∈ orig.data, isAllowedChar c = true) → sanitizeName orig = orig)
    ∧ sanitizeName "my file!@#.pdf" = "my_file___.pdf" := by
  refine ⟨?_, repr_data_digits now, repr_data_ne_nil now, rfl, ?_, ?_, ?_,
    by decide⟩
  · show (toString now ++ "-" ++ sanitizeName orig).data = _
    rw [String.data_append, String.data_append]
    simp [List.append_assoc]
    rfl
  · intro c hc
    rcases List.mem_map.mp hc with ⟨a, ha, rfl⟩
    by_cases hall : isAllowedChar a = true
    · rw [if_pos hall]
      exact hall
    · rw [if_neg hall]
      decide
  · show (sanitizeName orig).data.length = orig.data.length
    exact List.length_map orig.data _
  · intro h
    show String.mk (orig.data.map _) = orig
    rw [map_allowed_id orig.data h]

/-- Witness for C7: an already-clean filename passes through unchanged, and
the spec's example yields the expected stored name at a concrete timestamp. -/
theorem c7_witness :
    sanitizeName "brief.txt" = "brief.txt"
    ∧ storedFileName 1700000000000 "my file!@#.pdf"
        = "1700000000000-my_file___.pdf" := by
  refine ⟨(c7_stored_filename 1700000000000 "brief.txt").2.2.2.2.2.2.1
    (by decide), by decide⟩

/-! ### Claim C8 -/

/-- Claim C8: every file list the upload stage accepts has at most 5 entries,
each within the 10 MiB cap; 6 parts are rejected before the handler body
runs, an oversized part is rejected, and hence every submission the handler
inserts carries at most 5 attachments, each within the cap. -/
theorem c8_attachment_limits :
    (∀ (now : Nat) (files : List RawFile) (fs : List FileInfo),
      multerStage now files = .ok fs →
      fs.length ≤ 5 ∧ ∀ f ∈ fs, f.size ≤ maxFileSize)
    ∧ (∀ (now : Nat) (files : List RawFile),
        5 < files.length → multerStage now files = .error .tooManyFiles)
    ∧ (∀ (now : Nat) (files : List RawFile) (g : RawFile),
        g ∈ files → maxFileSize < g.size → files.length ≤ 5 →
        multerStage now files = .error .fileTooLarge)
    ∧ (∀ (cfg : Config) (now : Nat) (rawFiles : List RawFile) (b : FormBody)
        (createdAt : String) (dbOk mailOk : Bool) (r : HandlerResult)
        (sub : Submission),
        route cfg now rawFiles b createdAt dbOk mailOk = .ok r →
        r.inserted = some sub →
        sub.attachments.length ≤ 5 ∧
          ∀ f ∈ sub.attachments, f.size ≤ maxFileSize) := by
  have key : ∀ (now : Nat) (files : List RawFile) (fs : List FileInfo),
      multerStage now files = .ok fs →
      fs.length ≤ 5 ∧ ∀ f ∈ fs, f.size ≤ maxFileSize := by
    intro now files fs h
    obtain ⟨hfs, hlen, hsz, -⟩ := multerStage_ok_spec h
    subst hfs
    constructor
    · rw [List.length_map]
      exact hlen
    · intro f hf
      rcases List.mem_map.mp hf with ⟨g, hg, rfl⟩
      exact hsz g hg
  refine ⟨key, ?_, ?_, ?_⟩
  · intro now files h
    unfold multerStage
    rw [if_pos (show files.length > maxFileCount from h)]
  · intro now files g hg hsize hlen
    unfold multerStage
    have hany : (files.any fun f => f.size > maxFileSize) = true :=
      List.any_eq_true.mpr ⟨g, hg, by simpa using hsize⟩
    rw [if_neg (show ¬files.length > maxFileCount from not_lt.mpr hlen),
      if_pos hany]
  · intro cfg now rawFiles b createdAt dbOk mailOk r sub hroute hins
    unfold route at hroute
    split at hroute
    · simp at hroute
    · rename_i fs hms
      injection hroute with hroute
      subst hroute
      obtain ⟨hsub, -, -⟩ := handler_inserted_eq hins
      subst hsub
      exact key now rawFiles fs hms

/-- Witness for C8: six uploaded parts are rejected with the file-count
error before the handler body runs. -/
theorem c8_witness :
    multerStage 1700000000000
      (List.replicate 6 ⟨"a.txt", "text/plain", 10, true⟩)
      = .error .tooManyFiles :=
  c8_attachment_limits.2.1 1700000000000 _ (by decide)

/-! ### Claim C9 -/

/-- Claim C9 counterexample: a storage write failure aborts in the upload
middleware, before the handler's try/catch ever runs, so the claim's
"500 with body exactly Server error" does not hold for that stage — the
framework's default error response answers instead. -/
theorem c9_counterexample :
    route cfgAll 1700000000000 [⟨"brief.txt", "text/plain", 1024, false⟩]
      bodyJane "2024-01-01T00:00:00.000Z" true true
      = .error .storageFailure
    ∧ routeResponse cfgAll 1700000000000
        [⟨"brief.txt", "text/plain", 1024, false⟩]
        bodyJane "2024-01-01T00:00:00.000Z" true true
      = defaultErrorResponse
    ∧ defaultErrorResponse ≠ serverErrorResponse := by
  refine ⟨rfl, by decide, by decide⟩

/-- Claim C9 (amended): every failure inside the handler body — a failing
insert or a failing send — is answered 500 with body exactly
"Server error", identical for both stages, so the client cannot tell which
stage failed; upload-middleware failures (storage writes included) never
reach this catch block and are answered by the framework default instead. -/
theorem c9_generic_server_error :
    ∀ (cfg : Config) (b : FormBody) (files : List FileInfo)
      (createdAt : String) (dbOk mailOk : Bool),
      requiredMissing b = false →
      ((envTruthy cfg.mongoUri = true ∧ dbOk = false)
        ∨ (smtpConfigured cfg = true ∧ mailOk = false
            ∧ (envTruthy cfg.mongoUri = true → dbOk = true))) →
      (handler cfg b files createdAt dbOk mailOk).response
        = serverErrorResponse := by
  intro cfg b files createdAt dbOk mailOk hrm h
  rcases h with ⟨hB, hdb⟩ | ⟨hs, hm, hdb⟩
  · simp [handler, hrm, hB, hdb]
  · cases hB : envTruthy cfg.mongoUri
    · simp [handler, hrm, hB, hs, hm]
    · simp [handler, hrm, hB, hdb hB, hs, hm]

/-- Witness for C9: a failing insert on a valid request yields exactly the
generic 500 "Server error" response. -/
theorem c9_witness :
    (handler cfgAll bodyJane [] "2024-01-01T00:00:00.000Z" false true).response
      = serverErrorResponse :=
  c9_generic_server_error cfgAll bodyJane [] "2024-01-01T00:00:00.000Z"
    false true (by decide) (Or.inl ⟨by decide, rfl⟩)

/-! ### Claim C10 -/

/-- Claim C10: when the insert succeeds and the subsequent send throws, the
response is the generic server error, yet the inserted record is still the
one built from the request — the handler performs no delete, so the insert
is never rolled back. -/
theorem c10_no_rollback :
    ∀ (cfg : Config) (b : FormBody) (files : List FileInfo) (createdAt : String),
      requiredMissing b = false →
      envTruthy cfg.mongoUri = true →
      smtpConfigured cfg = true →
      (handler cfg b files createdAt true false).response = serverErrorResponse
      ∧ (handler cfg b files createdAt true false).inserted
          = some (mkSubmission b files createdAt)
      ∧ (handler cfg b files createdAt true false).insertAttempted = true
      ∧ (handler cfg b files createdAt true false).sendAttempted = true := by
  intro cfg b files createdAt hrm hB hs
  refine ⟨?_, ?_, ?_, ?_⟩ <;> simp [handler, hrm, hB, hs]

/-- Witness for C10: concretely, with everything configured, a successful
insert followed by a failing send leaves the record stored and answers 500. -/
theorem c10_witness :
    (handler cfgAll bodyJane [] "2024-01-01T00:00:00.000Z" true false).response
      = serverErrorResponse
    ∧ (handler cfgAll bodyJane [] "2024-01-01T00:00:00.000Z" true false).inserted
      = some (mkSubmission bodyJane [] "2024-01-01T00:00:00.000Z") := by
  have h := c10_no_rollback cfgAll bodyJane [] "2024-01-01T00:00:00.000Z"
    (by decide) (by decide) (by decide)
  exact ⟨h.1, h.2.1⟩

end One20
